import Mathlib

/-!
Shallow embedding of `app/services/database_service.py` from the
streamlit-onepager-console repository.

The Python module defines a pydantic model `OnePagerRecord` and a
`DatabaseService` that stores such records in a single table
(`one_pager_reports`) of a hosted store.  The only transformation logic is
the packing of the field pair `excel_blob_url` / `excel_blob_path` into the
single JSON column `excel_blob_info` on write, and the converse unpacking
on read.  We model:

* JSON column values as an inductive `JsonVal` (the `excel_blob_info`
  column can hold an arbitrary JSON value when rows are read back);
* the pydantic record as a Lean structure `OnePagerRecord`;
* a table row as a structure `DbRow` (same fields, with the excel pair
  collapsed into the `excel_blob_info` column, exactly as the table schema
  has it);
* the table as a list of rows plus the next auto-increment id;
* each service method as a pure function over the table; the underlying
  client exception during `execute()` is modelled by an
  `Option String` argument (`some msg` = the client raises), and the
  `try/except` wrapping of each method is reflected in how that argument
  and validation failures are turned into `none` / `[]` / `false` results;
* pydantic validation of the fields populated from raw JSON
  (`excel_blob_url`, `excel_blob_path` as `Optional[str]`,
  `excel_blob_info` as `Optional[Dict[str, Any]]`) as `Except`-valued
  validators: `OnePagerRecord(**db_record)` raises a `ValidationError`
  when one of those values has the wrong shape.
-/

/-- A JSON value, as stored in a JSON column of the table. -/
inductive JsonVal where
  | jNull : JsonVal
  | jStr : String → JsonVal
  | jInt : Int → JsonVal
  | jBool : Bool → JsonVal
  | jObj : List (String × JsonVal) → JsonVal
  | jArr : List JsonVal → JsonVal

/-- Python truthiness of an `Optional[str]` value: `None` and `""` are
falsy, every other string is truthy. -/
def pyTruthyStr : Option String → Bool
  | none => false
  | some s => !(s == "")

/-- Python truthiness of a JSON value: `None`, `""`, `0`, `False`, `{}`
and `[]` are falsy. -/
def jsonTruthy : JsonVal → Bool
  | .jNull => false
  | .jStr s => !(s == "")
  | .jInt n => !(n == 0)
  | .jBool b => b
  | .jObj ps => !ps.isEmpty
  | .jArr vs => !vs.isEmpty

/-- An `Optional[str]` value serialized into a JSON column: `None` becomes
JSON `null`, a string stays a string. -/
def jsonOfOptStr : Option String → JsonVal
  | none => JsonVal.jNull
  | some s => JsonVal.jStr s

/-- Lookup modelling `dict.get(key)` on a JSON object: the value of the first binding of
`key`, or `none` (Python `None`) when the key is absent. -/
def jLookup (ps : List (String × JsonVal)) (key : String) : Option JsonVal :=
  match ps with
  | [] => none
  | (k, v) :: rest => if k == key then some v else jLookup rest key

/-- The excel-pair packing rule, duplicated verbatim in
`_prepare_record_for_db`, `update_one_pager_record` and
`update_one_pager_record_atomic`:
if either popped value is truthy, store the two-key object
holding both keys `excel_blob_url` and `excel_blob_path`; otherwise store
`None`. -/
def packExcelBlobInfo (excel_blob_url excel_blob_path : Option String) : JsonVal :=
  if pyTruthyStr excel_blob_url || pyTruthyStr excel_blob_path then
    JsonVal.jObj [("excel_blob_url", jsonOfOptStr excel_blob_url),
                  ("excel_blob_path", jsonOfOptStr excel_blob_path)]
  else
    JsonVal.jNull

/-- Pydantic validation of a value destined for an `Optional[str]` field:
absent keys and JSON `null` become `None`, strings stay strings, and any
other shape is a `ValidationError`. -/
def validateOptionalStr : Option JsonVal → Except String (Option String)
  | none => .ok none
  | some .jNull => .ok none
  | some (.jStr s) => .ok (some s)
  | some _ => .error "ValidationError: str type expected"

/-- Pydantic validation of a value destined for an
`Optional[Dict[str, Any]]` field: absent keys and JSON `null` become
`None`, objects stay objects, and any other shape is a
`ValidationError`. -/
def validateOptionalDict :
    Option JsonVal → Except String (Option (List (String × JsonVal)))
  | none => .ok none
  | some .jNull => .ok none
  | some (.jObj ps) => .ok (some ps)
  | some _ => .error "ValidationError: dict type expected"

/-- The pydantic model `OnePagerRecord` of `database_service.py`. -/
structure OnePagerRecord where
  id : Option Int := none
  request_id : String
  session_id : Option String := none
  company_name : String
  website_url : String
  status : String
  generated_at : String
  duration_ms : Int
  folder_title : String
  base_path : String
  container : String
  pptx_filename : String
  pptx_blob_url : Option String := none
  pptx_blob_path : Option String := none
  metadata_blob_url : Option String := none
  excel_provided : Bool := false
  excel_filename : Option String := none
  excel_size : Option Int := none
  excel_blob_url : Option String := none
  excel_blob_path : Option String := none
  excel_blob_info : Option (List (String × JsonVal)) := none
  sections_status : Option (List (String × JsonVal)) := none
  sections_response : Option (List (String × JsonVal)) := none
  section_sources : Option (List (String × JsonVal)) := none
  product_images : Option (List String) := none
  products : Option (List (List (String × JsonVal))) := none
  company_logo : Option String := none
  azure_upload_ok : Bool := false
  azure_upload_error : Option String := none
  warnings : Option (List String) := none
  error_type : Option String := none
  error_message : Option String := none
  created_at : Option String := none
  updated_at : Option String := none

/-- A row of the `one_pager_reports` table: the same fields as the model,
except that the pair `excel_blob_url` / `excel_blob_path` is collapsed
into the single JSON column `excel_blob_info` (`none` = column absent from
the returned row dict). -/
structure DbRow where
  id : Option Int := none
  request_id : String
  session_id : Option String := none
  company_name : String
  website_url : String
  status : String
  generated_at : String
  duration_ms : Int
  folder_title : String
  base_path : String
  container : String
  pptx_filename : String
  pptx_blob_url : Option String := none
  pptx_blob_path : Option String := none
  metadata_blob_url : Option String := none
  excel_provided : Bool := false
  excel_filename : Option String := none
  excel_size : Option Int := none
  excel_blob_info : Option JsonVal := none
  sections_status : Option (List (String × JsonVal)) := none
  sections_response : Option (List (String × JsonVal)) := none
  section_sources : Option (List (String × JsonVal)) := none
  product_images : Option (List String) := none
  products : Option (List (List (String × JsonVal))) := none
  company_logo : Option String := none
  azure_upload_ok : Bool := false
  azure_upload_error : Option String := none
  warnings : Option (List String) := none
  error_type : Option String := none
  error_message : Option String := none
  created_at : Option String := none
  updated_at : Option String := none

/-- Model of `_prepare_record_for_db`: dump the model excluding `id`, `created_at`
and `updated_at`, pop the excel pair, and set the `excel_blob_info` column
from it by the packing rule. -/
def _prepare_record_for_db (record_data : OnePagerRecord) : DbRow :=
  let excel_blob_url := record_data.excel_blob_url
  let excel_blob_path := record_data.excel_blob_path
  { id := none
    request_id := record_data.request_id
    session_id := record_data.session_id
    company_name := record_data.company_name
    website_url := record_data.website_url
    status := record_data.status
    generated_at := record_data.generated_at
    duration_ms := record_data.duration_ms
    folder_title := record_data.folder_title
    base_path := record_data.base_path
    container := record_data.container
    pptx_filename := record_data.pptx_filename
    pptx_blob_url := record_data.pptx_blob_url
    pptx_blob_path := record_data.pptx_blob_path
    metadata_blob_url := record_data.metadata_blob_url
    excel_provided := record_data.excel_provided
    excel_filename := record_data.excel_filename
    excel_size := record_data.excel_size
    excel_blob_info := some (packExcelBlobInfo excel_blob_url excel_blob_path)
    sections_status := record_data.sections_status
    sections_response := record_data.sections_response
    section_sources := record_data.section_sources
    product_images := record_data.product_images
    products := record_data.products
    company_logo := record_data.company_logo
    azure_upload_ok := record_data.azure_upload_ok
    azure_upload_error := record_data.azure_upload_error
    warnings := record_data.warnings
    error_type := record_data.error_type
    error_message := record_data.error_message
    created_at := none
    updated_at := none }

/-- The record built at the end of `_extract_record_from_db`
(`OnePagerRecord(**db_record)` after validation): every field is taken
from the row, except the three excel fields, which carry the validated
values. -/
def extractedRecord (db_record : DbRow) (excel_blob_url excel_blob_path : Option String)
    (excel_blob_info : Option (List (String × JsonVal))) : OnePagerRecord :=
  { id := db_record.id
    request_id := db_record.request_id
    session_id := db_record.session_id
    company_name := db_record.company_name
    website_url := db_record.website_url
    status := db_record.status
    generated_at := db_record.generated_at
    duration_ms := db_record.duration_ms
    folder_title := db_record.folder_title
    base_path := db_record.base_path
    container := db_record.container
    pptx_filename := db_record.pptx_filename
    pptx_blob_url := db_record.pptx_blob_url
    pptx_blob_path := db_record.pptx_blob_path
    metadata_blob_url := db_record.metadata_blob_url
    excel_provided := db_record.excel_provided
    excel_filename := db_record.excel_filename
    excel_size := db_record.excel_size
    excel_blob_url := excel_blob_url
    excel_blob_path := excel_blob_path
    excel_blob_info := excel_blob_info
    sections_status := db_record.sections_status
    sections_response := db_record.sections_response
    section_sources := db_record.section_sources
    product_images := db_record.product_images
    products := db_record.products
    company_logo := db_record.company_logo
    azure_upload_ok := db_record.azure_upload_ok
    azure_upload_error := db_record.azure_upload_error
    warnings := db_record.warnings
    error_type := db_record.error_type
    error_message := db_record.error_message
    created_at := db_record.created_at
    updated_at := db_record.updated_at }

/-- Model of `_extract_record_from_db`: when the `excel_blob_info` column is truthy
and a dict, copy its two keys into `excel_blob_url` / `excel_blob_path`;
otherwise set both to `None`; then build the pydantic record, which
validates the shapes of those values and of `excel_blob_info` itself and
raises a `ValidationError` (here: `.error`) on a wrong shape. -/
def _extract_record_from_db (db_record : DbRow) : Except String OnePagerRecord := do
  let excelPair : Option JsonVal × Option JsonVal :=
    match db_record.excel_blob_info with
    | some (.jObj ps) =>
        if jsonTruthy (.jObj ps) then
          (jLookup ps "excel_blob_url", jLookup ps "excel_blob_path")
        else
          (some .jNull, some .jNull)
    | _ => (some .jNull, some .jNull)
  let excel_blob_url ← validateOptionalStr excelPair.1
  let excel_blob_path ← validateOptionalStr excelPair.2
  let excel_blob_info ← validateOptionalDict db_record.excel_blob_info
  pure (extractedRecord db_record excel_blob_url excel_blob_path excel_blob_info)

/-- The `one_pager_reports` table: its rows and the next value of the
auto-increment primary key. -/
structure Table where
  rows : List DbRow
  nextId : Int

/-- A partial update payload (the `update_data : Dict[str, Any]` argument
of the update methods): for each column key, `none` means the key is
absent from the dict and `some v` means the key is present with value
`v`.  The two popped keys `excel_blob_url` / `excel_blob_path` carry
`Optional[str]` values. -/
structure UpdateData where
  id : Option (Option Int) := none
  request_id : Option String := none
  session_id : Option (Option String) := none
  company_name : Option String := none
  website_url : Option String := none
  status : Option String := none
  generated_at : Option String := none
  duration_ms : Option Int := none
  folder_title : Option String := none
  base_path : Option String := none
  container : Option String := none
  pptx_filename : Option String := none
  pptx_blob_url : Option (Option String) := none
  pptx_blob_path : Option (Option String) := none
  metadata_blob_url : Option (Option String) := none
  excel_provided : Option Bool := none
  excel_filename : Option (Option String) := none
  excel_size : Option (Option Int) := none
  excel_blob_url : Option (Option String) := none
  excel_blob_path : Option (Option String) := none
  excel_blob_info : Option (Option JsonVal) := none
  sections_status : Option (Option (List (String × JsonVal))) := none
  sections_response : Option (Option (List (String × JsonVal))) := none
  section_sources : Option (Option (List (String × JsonVal))) := none
  product_images : Option (Option (List String)) := none
  products : Option (Option (List (List (String × JsonVal)))) := none
  company_logo : Option (Option String) := none
  azure_upload_ok : Option Bool := none
  azure_upload_error : Option (Option String) := none
  warnings : Option (Option (List String)) := none
  error_type : Option (Option String) := none
  error_message : Option (Option String) := none
  created_at : Option (Option String) := none
  updated_at : Option (Option String) := none

/-- The store applying an `update(update_data)` payload to one row: every
column whose key is present in the dict is overwritten with the supplied
value, every other column keeps its current value. -/
def applyUpdate (u : UpdateData) (r : DbRow) : DbRow :=
  { id := u.id.getD r.id
    request_id := u.request_id.getD r.request_id
    session_id := u.session_id.getD r.session_id
    company_name := u.company_name.getD r.company_name
    website_url := u.website_url.getD r.website_url
    status := u.status.getD r.status
    generated_at := u.generated_at.getD r.generated_at
    duration_ms := u.duration_ms.getD r.duration_ms
    folder_title := u.folder_title.getD r.folder_title
    base_path := u.base_path.getD r.base_path
    container := u.container.getD r.container
    pptx_filename := u.pptx_filename.getD r.pptx_filename
    pptx_blob_url := u.pptx_blob_url.getD r.pptx_blob_url
    pptx_blob_path := u.pptx_blob_path.getD r.pptx_blob_path
    metadata_blob_url := u.metadata_blob_url.getD r.metadata_blob_url
    excel_provided := u.excel_provided.getD r.excel_provided
    excel_filename := u.excel_filename.getD r.excel_filename
    excel_size := u.excel_size.getD r.excel_size
    excel_blob_info := u.excel_blob_info.getD r.excel_blob_info
    sections_status := u.sections_status.getD r.sections_status
    sections_response := u.sections_response.getD r.sections_response
    section_sources := u.section_sources.getD r.section_sources
    product_images := u.product_images.getD r.product_images
    products := u.products.getD r.products
    company_logo := u.company_logo.getD r.company_logo
    azure_upload_ok := u.azure_upload_ok.getD r.azure_upload_ok
    azure_upload_error := u.azure_upload_error.getD r.azure_upload_error
    warnings := u.warnings.getD r.warnings
    error_type := u.error_type.getD r.error_type
    error_message := u.error_message.getD r.error_message
    created_at := u.created_at.getD r.created_at
    updated_at := u.updated_at.getD r.updated_at }

/-- Model of `DatabaseService.__init__`: reads `SUPABASE_URL` and
`SUPABASE_ANON_KEY` from the environment (modelled as the two `Option
String` arguments; an unset variable is `none`), raises a `ValueError`
when either is falsy, then constructs the client, re-raising as a
`ValueError` when that fails (modelled by `clientOk = false`). -/
def DatabaseService_init (supabase_url supabase_key : Option String)
    (clientOk : Bool) : Except String Unit :=
  if !pyTruthyStr supabase_url || !pyTruthyStr supabase_key then
    .error "SUPABASE_URL and SUPABASE_ANON_KEY must be set"
  else if clientOk then
    .ok ()
  else
    .error "Failed to connect to Supabase"

/-- Model of `create_one_pager_record`: prepare the row, stamp `created_at` and
`updated_at` with the current time, insert it (the store assigns
`nextId`), and return the extraction of the returned inserted row; any
exception (client or validation) is caught and turned into `none`. -/
def create_one_pager_record (t : Table) (now : String) (clientExc : Option String)
    (record_data : OnePagerRecord) : Table × Option OnePagerRecord :=
  let data := _prepare_record_for_db record_data
  let data := { data with created_at := some now, updated_at := some now }
  match clientExc with
  | some _ => (t, none)
  | none =>
    let inserted := { data with id := some t.nextId }
    let t2 : Table := { rows := t.rows ++ [inserted], nextId := t.nextId + 1 }
    match _extract_record_from_db inserted with
    | .ok created_record => (t2, some created_record)
    | .error _ => (t2, none)

/-- Model of `update_one_pager_record`: pop the excel pair from the payload (with
default `None`), set `excel_blob_info` by the packing rule, re-stamp
`updated_at`, and apply the payload to every row matching
`eq(id, record_id)`; return the extraction of the first updated row the
store reports, `none` when no row matched; any exception is caught and
turned into `none`. -/
def update_one_pager_record (t : Table) (now : String) (clientExc : Option String)
    (record_id : Int) (update_data : UpdateData) : Table × Option OnePagerRecord :=
  let excel_blob_url : Option String := update_data.excel_blob_url.getD none
  let excel_blob_path : Option String := update_data.excel_blob_path.getD none
  let update_data := { update_data with
    excel_blob_url := none
    excel_blob_path := none
    excel_blob_info := some (some (packExcelBlobInfo excel_blob_url excel_blob_path))
    updated_at := some (some now) }
  match clientExc with
  | some _ => (t, none)
  | none =>
    let rowMatches : DbRow → Bool := fun r => r.id == some record_id
    let t2 : Table :=
      { t with rows := t.rows.map (fun r => if rowMatches r then applyUpdate update_data r else r) }
    match (t.rows.filter rowMatches).map (applyUpdate update_data) with
    | [] => (t2, none)
    | row :: _ =>
      match _extract_record_from_db row with
      | .ok updated_record => (t2, some updated_record)
      | .error _ => (t2, none)

/-- Model of `update_one_pager_record_atomic`: same payload handling as
`update_one_pager_record`, but the row filter additionally requires
`eq(status, expected_status)` when the optional guard is supplied; the
store applies the filtered update as one statement. -/
def update_one_pager_record_atomic (t : Table) (now : String) (clientExc : Option String)
    (record_id : Int) (update_data : UpdateData) (expected_status : Option String) :
    Table × Option OnePagerRecord :=
  let excel_blob_url : Option String := update_data.excel_blob_url.getD none
  let excel_blob_path : Option String := update_data.excel_blob_path.getD none
  let update_data := { update_data with
    excel_blob_url := none
    excel_blob_path := none
    excel_blob_info := some (some (packExcelBlobInfo excel_blob_url excel_blob_path))
    updated_at := some (some now) }
  match clientExc with
  | some _ => (t, none)
  | none =>
    let rowMatches : DbRow → Bool := fun r =>
      r.id == some record_id &&
        (match expected_status with
         | some st => r.status == st
         | none => true)
    let t2 : Table :=
      { t with rows := t.rows.map (fun r => if rowMatches r then applyUpdate update_data r else r) }
    match (t.rows.filter rowMatches).map (applyUpdate update_data) with
    | [] => (t2, none)
    | row :: _ =>
      match _extract_record_from_db row with
      | .ok updated_record => (t2, some updated_record)
      | .error _ => (t2, none)

/-- Model of `get_one_pager_record`: select the rows with `eq(id, record_id)`
and return the extraction of the first one, `none` when there is none or
on any exception. -/
def get_one_pager_record (t : Table) (clientExc : Option String)
    (record_id : Int) : Option OnePagerRecord :=
  match clientExc with
  | some _ => none
  | none =>
    match t.rows.filter (fun r => r.id == some record_id) with
    | [] => none
    | row :: _ =>
      match _extract_record_from_db row with
      | .ok record => some record
      | .error _ => none

/-- Extract every row of a result set; `none` when the extraction of any
row raises (the Python list comprehension propagates the first
`ValidationError` to the enclosing `except`). -/
def extractAllRecords : List DbRow → Option (List OnePagerRecord)
  | [] => some []
  | row :: rest =>
    match _extract_record_from_db row with
    | .error _ => none
    | .ok record =>
      match extractAllRecords rest with
      | none => none
      | some records => some (record :: records)

/-- Comparison modelling `order(created_at, desc=True)`: used by the store for
descending order on the `created_at` column (nulls first, as `none` is
taken as the smallest value by the ascending comparison). -/
def createdAtGe (a b : DbRow) : Bool :=
  match a.created_at, b.created_at with
  | none, none => true
  | none, some _ => false
  | some _, none => true
  | some x, some y => y ≤ x

/-- Insert one row into a list sorted by descending `created_at`. -/
def insertDescByCreatedAt (r : DbRow) : List DbRow → List DbRow
  | [] => [r]
  | x :: xs => if createdAtGe r x then r :: x :: xs else x :: insertDescByCreatedAt r xs

/-- Sort a result set by descending `created_at` (insertion sort; the
ordering guarantee of the store, not its algorithm, is what matters). -/
def sortDescByCreatedAt : List DbRow → List DbRow
  | [] => []
  | x :: xs => insertDescByCreatedAt x (sortDescByCreatedAt xs)

/-- Model of `get_one_pager_records_by_company`: all rows with
`eq(company_name, company_name)` ordered by `created_at` descending;
`[]` on any exception. -/
def get_one_pager_records_by_company (t : Table) (clientExc : Option String)
    (company_name : String) : List OnePagerRecord :=
  match clientExc with
  | some _ => []
  | none =>
    let resultData := sortDescByCreatedAt (t.rows.filter (fun r => r.company_name == company_name))
    match extractAllRecords resultData with
    | some records => records
    | none => []

/-- Model of `get_recent_one_pager_records`: all rows ordered by `created_at`
descending, limited to `limit`; `[]` on any exception. -/
def get_recent_one_pager_records (t : Table) (clientExc : Option String)
    (limit : Nat := 100) : List OnePagerRecord :=
  match clientExc with
  | some _ => []
  | none =>
    let resultData := (sortDescByCreatedAt t.rows).take limit
    match extractAllRecords resultData with
    | some records => records
    | none => []

/-- Model of `get_one_pager_record_by_request_id`: first row with
`eq(request_id, request_id)`; `none` when absent or on any
exception. -/
def get_one_pager_record_by_request_id (t : Table) (clientExc : Option String)
    (request_id : String) : Option OnePagerRecord :=
  match clientExc with
  | some _ => none
  | none =>
    match t.rows.filter (fun r => r.request_id == request_id) with
    | [] => none
    | row :: _ =>
      match _extract_record_from_db row with
      | .ok record => some record
      | .error _ => none

/-- Model of `get_in_progress_records_by_company`: rows with
`eq(company_name, company_name)` and `eq(status, in-progress)`,
ordered by `created_at` descending; `[]` on any exception. -/
def get_in_progress_records_by_company (t : Table) (clientExc : Option String)
    (company_name : String) : List OnePagerRecord :=
  match clientExc with
  | some _ => []
  | none =>
    let resultData := sortDescByCreatedAt
      (t.rows.filter (fun r => r.company_name == company_name && r.status == "in-progress"))
    match extractAllRecords resultData with
    | some records => records
    | none => []

/-- Model of `get_recent_request_by_company`: the single newest row with
`eq(company_name, company_name)` (descending order plus `limit(1)`);
`none` when absent or on any exception. -/
def get_recent_request_by_company (t : Table) (clientExc : Option String)
    (company_name : String) : Option OnePagerRecord :=
  match clientExc with
  | some _ => none
  | none =>
    match (sortDescByCreatedAt (t.rows.filter (fun r => r.company_name == company_name))).take 1 with
    | [] => none
    | row :: _ =>
      match _extract_record_from_db row with
      | .ok record => some record
      | .error _ => none

/-- Model of `delete_one_pager_record`: delete the rows with
`eq(id, record_id)`; the result is the truthiness of the list of
deleted rows the store reports; `false` on any exception. -/
def delete_one_pager_record (t : Table) (clientExc : Option String)
    (record_id : Int) : Table × Bool :=
  match clientExc with
  | some _ => (t, false)
  | none =>
    let deletedRows := t.rows.filter (fun r => r.id == some record_id)
    let t2 : Table := { t with rows := t.rows.filter (fun r => !(r.id == some record_id)) }
    (t2, !deletedRows.isEmpty)

/-! ### Helper lemmas shared by the claim theorems -/

theorem validateOptionalStr_jsonOfOptStr (v : Option String) :
    validateOptionalStr (some (jsonOfOptStr v)) = Except.ok v := by
  cases v <;> rfl

theorem _extract_record_from_db_packed (row : DbRow) (u p : Option String)
    (h : row.excel_blob_info = some (packExcelBlobInfo u p)) :
    ∃ rec, _extract_record_from_db row = Except.ok rec ∧
      rec.excel_blob_url = (if pyTruthyStr u || pyTruthyStr p then u else none) ∧
      rec.excel_blob_path = (if pyTruthyStr u || pyTruthyStr p then p else none) ∧
      rec.id = row.id ∧ rec.status = row.status ∧
      rec.created_at = row.created_at ∧ rec.updated_at = row.updated_at := by
  by_cases hc : (pyTruthyStr u || pyTruthyStr p) = true
  · rw [packExcelBlobInfo] at h
    simp only [hc, if_true] at h
    refine ⟨extractedRecord row u p
        (some [("excel_blob_url", jsonOfOptStr u), ("excel_blob_path", jsonOfOptStr p)]),
        ?_, by simp [hc, extractedRecord], by simp [hc, extractedRecord],
        rfl, rfl, rfl, rfl⟩
    have e1 : (("excel_blob_url" : String) == "excel_blob_url") = true := by decide
    have e2 : (("excel_blob_url" : String) == "excel_blob_path") = false := by decide
    have e3 : (("excel_blob_path" : String) == "excel_blob_url") = false := by decide
    have e4 : (("excel_blob_path" : String) == "excel_blob_path") = true := by decide
    simp only [_extract_record_from_db, h, jsonTruthy, List.isEmpty, Bool.not_false,
      if_true, if_false, jLookup, e1, e2, e3, e4, Bind.bind, Except.bind,
      validateOptionalStr_jsonOfOptStr, validateOptionalDict]
    simp [validateOptionalStr_jsonOfOptStr, pure, Except.pure]
  · rw [packExcelBlobInfo] at h
    simp only [hc, if_false] at h
    refine ⟨extractedRecord row none none none, ?_,
        by simp [hc, extractedRecord], by simp [hc, extractedRecord],
        rfl, rfl, rfl, rfl⟩
    simp only [_extract_record_from_db, h, Bind.bind, Except.bind,
      validateOptionalStr, validateOptionalDict]
    rfl

/-! ### Claim theorems -/

/-- C8: `create_one_pager_record` stamps `created_at` and `updated_at` of
the inserted row with the same current timestamp, excludes any
caller-supplied `id`, `created_at` or `updated_at` from the inserted row
(the result is independent of those three input fields), and on success
returns the persisted record carrying the store-assigned id and the two
equal timestamps. -/
theorem create_record_stamps_and_owns_store_fields (t : Table) (now : String)
    (record_data : OnePagerRecord) :
    (∃ row, (create_one_pager_record t now none record_data).1.rows = t.rows ++ [row]
        ∧ row.created_at = some now ∧ row.updated_at = some now
        ∧ row.id = some t.nextId)
    ∧ (∃ rec, (create_one_pager_record t now none record_data).2 = some rec
        ∧ rec.id = some t.nextId ∧ rec.created_at = some now ∧ rec.updated_at = some now)
    ∧ (∀ i ca ua, create_one_pager_record t now none
          { record_data with id := i, created_at := ca, updated_at := ua }
        = create_one_pager_record t now none record_data) := by
  obtain ⟨rec, hext, _, _, hid, _, hca, hua⟩ :=
    _extract_record_from_db_packed
      { _prepare_record_for_db record_data with
          created_at := some now, updated_at := some now, id := some t.nextId }
      record_data.excel_blob_url record_data.excel_blob_path rfl
  refine ⟨⟨{ _prepare_record_for_db record_data with
        created_at := some now, updated_at := some now, id := some t.nextId },
      ?_, rfl, rfl, rfl⟩, ⟨rec, ?_, ?_, ?_, ?_⟩, fun i ca ua => rfl⟩
  · simp only [create_one_pager_record, hext]
  · simp only [create_one_pager_record, hext]
  · exact hid
  · exact hca
  · exact hua

/-- C1: for a record carrying both `excel_blob_url` and `excel_blob_path`
as non-empty strings, `create_one_pager_record` followed by
`get_one_pager_record` on the returned id yields a record whose two excel
fields equal the original values: the write-side packing and the
read-side unpacking compose to the identity on this pair. -/
theorem create_then_get_round_trips_excel_pair (t : Table) (now : String)
    (record_data : OnePagerRecord) (u p : String)
    (hu : record_data.excel_blob_url = some u)
    (hp : record_data.excel_blob_path = some p)
    (hu0 : u ≠ "") (hp0 : p ≠ "")
    (hfresh : ∀ r ∈ t.rows, r.id ≠ some t.nextId) :
    ∃ rec, (create_one_pager_record t now none record_data).2 = some rec ∧
      rec.id = some t.nextId ∧
      ∃ rec2, get_one_pager_record (create_one_pager_record t now none record_data).1
          none t.nextId = some rec2 ∧
        rec2.excel_blob_url = some u ∧ rec2.excel_blob_path = some p := by
  have htr : (pyTruthyStr record_data.excel_blob_url
      || pyTruthyStr record_data.excel_blob_path) = true := by
    rw [hu, hp]
    simp [pyTruthyStr, hu0]
  obtain ⟨rec, hext, hres_u, hres_p, hid, _, _, _⟩ :=
    _extract_record_from_db_packed
      { _prepare_record_for_db record_data with
          created_at := some now, updated_at := some now, id := some t.nextId }
      record_data.excel_blob_url record_data.excel_blob_path rfl
  have hfilter : ((create_one_pager_record t now none record_data).1).rows.filter
      (fun r => r.id == some t.nextId)
      = [{ _prepare_record_for_db record_data with
            created_at := some now, updated_at := some now, id := some t.nextId }] := by
    simp only [create_one_pager_record, hext]
    rw [List.filter_append]
    have h1 : t.rows.filter (fun r => r.id == some t.nextId) = [] :=
      List.filter_eq_nil_iff.mpr (fun r hr => by simpa using hfresh r hr)
    rw [h1]
    simp
  refine ⟨rec, by simp only [create_one_pager_record, hext], hid, rec, ?_, ?_, ?_⟩
  · simp only [get_one_pager_record, hfilter, hext]
  · rw [hres_u, if_pos htr]
    exact hu
  · rw [hres_p, if_pos htr]
    exact hp

/-- C6: `update_one_pager_record_atomic` with the optional guard absent
(`expected_status = None`) is observably identical to
`update_one_pager_record`: the same row filter, the same written fields
(excel packing and `updated_at` re-stamp included), the same resulting
table and the same returned value. -/
theorem update_atomic_without_guard_equals_update (t : Table) (now : String)
    (clientExc : Option String) (record_id : Int) (update_data : UpdateData) :
    update_one_pager_record_atomic t now clientExc record_id update_data none
      = update_one_pager_record t now clientExc record_id update_data := by
  simp only [update_one_pager_record_atomic, update_one_pager_record, Bool.and_true]

/-- The payload both update methods actually send to the store: the excel
pair popped (keys removed), `excel_blob_info` set by the packing rule from
the popped values, and `updated_at` re-stamped with the current time. -/
def sentUpdatePayload (update_data : UpdateData) (now : String) : UpdateData :=
  { update_data with
    excel_blob_url := none
    excel_blob_path := none
    excel_blob_info := some (some (packExcelBlobInfo
      (update_data.excel_blob_url.getD none) (update_data.excel_blob_path.getD none)))
    updated_at := some (some now) }

theorem update_one_pager_record_rows (t : Table) (now : String) (record_id : Int)
    (update_data : UpdateData) :
    (update_one_pager_record t now none record_id update_data).1.rows
      = t.rows.map (fun r =>
          if r.id == some record_id then applyUpdate (sentUpdatePayload update_data now) r
          else r) := by
  simp only [update_one_pager_record, sentUpdatePayload]
  cases hfil : List.filter (fun r => r.id == some record_id) t.rows with
  | nil => rfl
  | cons row rest =>
    simp only [List.map_cons]
    cases hext : _extract_record_from_db (applyUpdate
        { update_data with
          excel_blob_url := none
          excel_blob_path := none
          excel_blob_info := some (some (packExcelBlobInfo
            (update_data.excel_blob_url.getD none) (update_data.excel_blob_path.getD none)))
          updated_at := some (some now) } row) with
    | ok rec => rfl
    | error e => rfl

theorem update_one_pager_record_atomic_rows (t : Table) (now : String) (record_id : Int)
    (update_data : UpdateData) (expected_status : Option String) :
    (update_one_pager_record_atomic t now none record_id update_data expected_status).1.rows
      = t.rows.map (fun r =>
          if r.id == some record_id &&
              (match expected_status with
               | some st => r.status == st
               | none => true) then
            applyUpdate (sentUpdatePayload update_data now) r
          else r) := by
  simp only [update_one_pager_record_atomic, sentUpdatePayload]
  cases hfil : List.filter (fun r => r.id == some record_id &&
      (match expected_status with
       | some st => r.status == st
       | none => true)) t.rows with
  | nil => rfl
  | cons row rest =>
    simp only [List.map_cons]
    cases hext : _extract_record_from_db (applyUpdate
        { update_data with
          excel_blob_url := none
          excel_blob_path := none
          excel_blob_info := some (some (packExcelBlobInfo
            (update_data.excel_blob_url.getD none) (update_data.excel_blob_path.getD none)))
          updated_at := some (some now) } row) with
    | ok rec => rfl
    | error e => rfl

theorem update_atomic_isSome_iff (t : Table) (now : String) (record_id : Int)
    (update_data : UpdateData) (st : String) :
    ((update_one_pager_record_atomic t now none record_id update_data (some st)).2).isSome = true
      ↔ ∃ r ∈ t.rows, r.id = some record_id ∧ r.status = st := by
  simp only [update_one_pager_record_atomic]
  cases hfil : List.filter (fun r => r.id == some record_id && r.status == st) t.rows with
  | nil =>
    simp only [List.map_nil, Option.isSome_none]
    constructor
    · intro h
      exact absurd h (by simp)
    · rintro ⟨r, hr, hid, hst⟩
      have hC := List.filter_eq_nil_iff.mp hfil r hr
      simp [hid, hst] at hC
  | cons row rest =>
    simp only [List.map_cons]
    obtain ⟨rec, hext, -, -, -, -, -, -⟩ := _extract_record_from_db_packed
      (applyUpdate
        { update_data with
          excel_blob_url := none
          excel_blob_path := none
          excel_blob_info := some (some (packExcelBlobInfo
            (update_data.excel_blob_url.getD none) (update_data.excel_blob_path.getD none)))
          updated_at := some (some now) } row)
      (update_data.excel_blob_url.getD none) (update_data.excel_blob_path.getD none) rfl
    rw [hext]
    simp only [Option.isSome_some, true_iff]
    have hmem : row ∈ List.filter
        (fun r => r.id == some record_id && r.status == st) t.rows := by
      rw [hfil]
      exact List.mem_cons_self _ _
    have h2 := (List.mem_filter.mp hmem).2
    simp only [Bool.and_eq_true, beq_iff_eq] at h2
    exact ⟨row, (List.mem_filter.mp hmem).1, h2.1, h2.2⟩

/-- C2: `update_one_pager_record_atomic` with a supplied `expected_status`
returns an updated record exactly when a row with the given id exists and
currently has the expected status; in both failure cases (id absent, or
status differing) it returns the same `none`; and two successive guarded
calls that each expect status `st` and write a different status `s1`
result in exactly one success: the first returns a record, the second
returns `none`. -/
theorem update_atomic_guard_and_single_winner
    (t : Table) (now now2 : String) (record_id : Int)
    (update_data update_data2 : UpdateData) (st s1 : String)
    (hstatus : update_data.status = some s1) (hs1 : s1 ≠ st) :
    (∀ (ud : UpdateData) (nw : String),
        ((update_one_pager_record_atomic t nw none record_id ud (some st)).2).isSome = true
          ↔ ∃ r ∈ t.rows, r.id = some record_id ∧ r.status = st)
    ∧ ((¬ ∃ r ∈ t.rows, r.id = some record_id ∧ r.status = st) →
        (update_one_pager_record_atomic t now none record_id update_data (some st)).2 = none)
    ∧ ((∃ r ∈ t.rows, r.id = some record_id ∧ r.status = st) →
        ((update_one_pager_record_atomic t now none record_id update_data (some st)).2).isSome
            = true
          ∧ (update_one_pager_record_atomic
              (update_one_pager_record_atomic t now none record_id update_data (some st)).1
              now2 none record_id update_data2 (some st)).2 = none) := by
  refine ⟨fun ud nw => update_atomic_isSome_iff t nw record_id ud st, ?_, ?_⟩
  · intro hnone
    cases hres : (update_one_pager_record_atomic t now none record_id update_data (some st)).2 with
    | none => rfl
    | some rec =>
      exact absurd ((update_atomic_isSome_iff t now record_id update_data st).mp
        (by rw [hres]; rfl)) hnone
  · intro hex
    refine ⟨(update_atomic_isSome_iff t now record_id update_data st).mpr hex, ?_⟩
    have hnone2 : ¬ ∃ r ∈ (update_one_pager_record_atomic t now none record_id update_data
        (some st)).1.rows, r.id = some record_id ∧ r.status = st := by
      rintro ⟨r2, hr2mem, hr2id, hr2st⟩
      rw [update_one_pager_record_atomic_rows] at hr2mem
      obtain ⟨r, hrmem, hrf⟩ := List.mem_map.mp hr2mem
      by_cases hpred : (r.id == some record_id && r.status == st) = true
      · rw [if_pos hpred] at hrf
        have : r2.status = s1 := by
          rw [← hrf]
          show (sentUpdatePayload update_data now).status.getD r.status = s1
          simp [sentUpdatePayload, hstatus]
        rw [hr2st] at this
        exact hs1 this.symm
      · rw [if_neg hpred] at hrf
        rw [← hrf] at hr2id hr2st
        simp [hr2id, hr2st] at hpred
    cases hres2 : (update_one_pager_record_atomic
        (update_one_pager_record_atomic t now none record_id update_data (some st)).1
        now2 none record_id update_data2 (some st)).2 with
    | none => rfl
    | some rec =>
      exact absurd ((update_atomic_isSome_iff _ now2 record_id update_data2 st).mp
        (by rw [hres2]; rfl)) hnone2

/-- C4: an update (plain or atomic) whose payload contains neither a
non-empty `excel_blob_url` nor a non-empty `excel_blob_path` writes the
`excel_blob_info` column as JSON `null` on every row it touches, erasing
any previously stored excel pair: after `update_one_pager_record`, every
row with the targeted id has a null `excel_blob_info`; after
`update_one_pager_record_atomic`, every row with the targeted id either
has a null `excel_blob_info` or was left untouched (guard mismatch). -/
theorem partial_update_without_excel_nulls_info (t : Table) (now : String)
    (record_id : Int) (update_data : UpdateData) (expected_status : Option String)
    (hu : pyTruthyStr (update_data.excel_blob_url.getD none) = false)
    (hp : pyTruthyStr (update_data.excel_blob_path.getD none) = false) :
    (∀ r' ∈ (update_one_pager_record t now none record_id update_data).1.rows,
        r'.id = some record_id → r'.excel_blob_info = some JsonVal.jNull)
    ∧ (∀ r' ∈ (update_one_pager_record_atomic t now none record_id update_data
          expected_status).1.rows,
        r'.id = some record_id →
          r'.excel_blob_info = some JsonVal.jNull ∨ r' ∈ t.rows) := by
  have hpack : packExcelBlobInfo (update_data.excel_blob_url.getD none)
      (update_data.excel_blob_path.getD none) = JsonVal.jNull := by
    simp [packExcelBlobInfo, hu, hp]
  constructor
  · intro r' hmem hid
    rw [update_one_pager_record_rows] at hmem
    obtain ⟨r, hrmem, hrf⟩ := List.mem_map.mp hmem
    split at hrf
    · rw [← hrf]
      show (sentUpdatePayload update_data now).excel_blob_info.getD r.excel_blob_info
        = some JsonVal.jNull
      simp [sentUpdatePayload, hpack]
    · rename_i hpred
      rw [← hrf] at hid
      simp [hid] at hpred
  · intro r' hmem hid
    rw [update_one_pager_record_atomic_rows] at hmem
    obtain ⟨r, hrmem, hrf⟩ := List.mem_map.mp hmem
    split at hrf
    · left
      rw [← hrf]
      show (sentUpdatePayload update_data now).excel_blob_info.getD r.excel_blob_info
        = some JsonVal.jNull
      simp [sentUpdatePayload, hpack]
    · right
      rw [← hrf]
      exact hrmem

theorem applyUpdate_sent_id (update_data : UpdateData) (now : String) (r : DbRow)
    (h : update_data.id = none) :
    (applyUpdate (sentUpdatePayload update_data now) r).id = r.id := by
  simp [applyUpdate, sentUpdatePayload, h]

theorem applyUpdate_sent_created_at (update_data : UpdateData) (now : String) (r : DbRow)
    (h : update_data.created_at = none) :
    (applyUpdate (sentUpdatePayload update_data now) r).created_at = r.created_at := by
  simp [applyUpdate, sentUpdatePayload, h]

theorem applyUpdate_sent_updated_at (update_data : UpdateData) (now : String) (r : DbRow) :
    (applyUpdate (sentUpdatePayload update_data now) r).updated_at = some now := by
  simp [applyUpdate, sentUpdatePayload]

/-- A concrete table row used in concrete instantiations. -/
def sampleRow : DbRow :=
  { id := some 1
    request_id := "r1"
    company_name := "Acme"
    website_url := "https://acme.example"
    status := "in-progress"
    generated_at := "2024-01-01T00:00:00"
    duration_ms := 0
    folder_title := "folder"
    base_path := "one-pagers/acme"
    container := "bynd-dev"
    pptx_filename := "deck.pptx"
    created_at := some "2024-01-01T00:00:00"
    updated_at := some "2024-01-01T00:00:00" }

/-- A concrete one-row table used in concrete instantiations. -/
def sampleTable : Table := { rows := [sampleRow], nextId := 2 }

/-- A concrete input record used in concrete instantiations. -/
def sampleRecord : OnePagerRecord :=
  { request_id := "r1"
    company_name := "Acme"
    website_url := "https://acme.example"
    status := "in-progress"
    generated_at := "2024-01-01T00:00:00"
    duration_ms := 0
    folder_title := "folder"
    base_path := "one-pagers/acme"
    container := "bynd-dev"
    pptx_filename := "deck.pptx" }

/-- A payload that places the store-owned key `created_at` in the partial
field set. -/
def createdAtPayload : UpdateData :=
  { created_at := some (some "1999-01-01T00:00:00") }

/-- C7 counterexample: the claim says the `created_at` of the targeted row is
unchanged regardless of what keys the caller places in the partial field
set; but a payload carrying a `created_at` key is passed through to the
store, so the update overwrites the `created_at` of the row. -/
theorem update_created_at_key_overwrites_counterexample :
    ((update_one_pager_record sampleTable "2024-06-01T00:00:00" none 1
        createdAtPayload).1.rows.map (fun r => r.created_at))
      = [some "1999-01-01T00:00:00"]
    ∧ sampleRow.created_at = some "2024-01-01T00:00:00" := by
  constructor <;> rfl

/-- C7 amended: provided the partial field set does not itself contain the
keys `id` or `created_at`, both update operations leave the `id`
and `created_at` of every row unchanged, and every row they touch gets `updated_at`
re-stamped to the current time (a caller-supplied `updated_at` key is
overwritten by the re-stamp). -/
theorem update_preserves_id_and_created_at (t : Table) (now : String) (record_id : Int)
    (update_data : UpdateData) (expected_status : Option String)
    (hid : update_data.id = none) (hcr : update_data.created_at = none) :
    ((update_one_pager_record t now none record_id update_data).1.rows.map
        (fun r => (r.id, r.created_at)) = t.rows.map (fun r => (r.id, r.created_at)))
    ∧ ((update_one_pager_record_atomic t now none record_id update_data
          expected_status).1.rows.map
        (fun r => (r.id, r.created_at)) = t.rows.map (fun r => (r.id, r.created_at)))
    ∧ (∀ r' ∈ (update_one_pager_record t now none record_id update_data).1.rows,
        r' ∈ t.rows ∨ r'.updated_at = some now)
    ∧ (∀ r' ∈ (update_one_pager_record_atomic t now none record_id update_data
          expected_status).1.rows,
        r' ∈ t.rows ∨ r'.updated_at = some now) := by
  refine ⟨?_, ?_, ?_, ?_⟩
  · rw [update_one_pager_record_rows, List.map_map]
    apply List.map_congr_left
    intro r hr
    simp only [Function.comp]
    split
    · rw [applyUpdate_sent_id update_data now r hid,
        applyUpdate_sent_created_at update_data now r hcr]
    · rfl
  · rw [update_one_pager_record_atomic_rows, List.map_map]
    apply List.map_congr_left
    intro r hr
    simp only [Function.comp]
    split
    · rw [applyUpdate_sent_id update_data now r hid,
        applyUpdate_sent_created_at update_data now r hcr]
    · rfl
  · intro r' hmem
    rw [update_one_pager_record_rows] at hmem
    obtain ⟨r, hrmem, hrf⟩ := List.mem_map.mp hmem
    split at hrf
    · right
      rw [← hrf]
      exact applyUpdate_sent_updated_at update_data now r
    · left
      rw [← hrf]
      exact hrmem
  · intro r' hmem
    rw [update_one_pager_record_atomic_rows] at hmem
    obtain ⟨r, hrmem, hrf⟩ := List.mem_map.mp hmem
    split at hrf
    · right
      rw [← hrf]
      exact applyUpdate_sent_updated_at update_data now r
    · left
      rw [← hrf]
      exact hrmem

/-- C10: on every write, the stored `excel_blob_info` column is the value
recomputed from the excel pair by the packing rule; an `excel_blob_info`
supplied on the input record or as a key of the partial field set is
unconditionally overwritten: the three write operations are independent
of that input, and every row they touch carries the recomputed column. -/
theorem excel_blob_info_always_recomputed (t : Table) (now : String)
    (record_data : OnePagerRecord) (record_id : Int) (update_data : UpdateData)
    (expected_status : Option String) :
    (∃ row, (create_one_pager_record t now none record_data).1.rows = t.rows ++ [row]
        ∧ row.excel_blob_info = some (packExcelBlobInfo
            record_data.excel_blob_url record_data.excel_blob_path))
    ∧ (∀ x, create_one_pager_record t now none
          { record_data with excel_blob_info := x }
        = create_one_pager_record t now none record_data)
    ∧ (∀ x, update_one_pager_record t now none record_id
          { update_data with excel_blob_info := x }
        = update_one_pager_record t now none record_id update_data)
    ∧ (∀ x, update_one_pager_record_atomic t now none record_id
          { update_data with excel_blob_info := x } expected_status
        = update_one_pager_record_atomic t now none record_id update_data expected_status)
    ∧ (∀ r' ∈ (update_one_pager_record t now none record_id update_data).1.rows,
        r' ∈ t.rows ∨ r'.excel_blob_info = some (packExcelBlobInfo
          (update_data.excel_blob_url.getD none) (update_data.excel_blob_path.getD none)))
    ∧ (∀ r' ∈ (update_one_pager_record_atomic t now none record_id update_data
          expected_status).1.rows,
        r' ∈ t.rows ∨ r'.excel_blob_info = some (packExcelBlobInfo
          (update_data.excel_blob_url.getD none) (update_data.excel_blob_path.getD none))) := by
  obtain ⟨rec, hext, -, -, -, -, -, -⟩ :=
    _extract_record_from_db_packed
      { _prepare_record_for_db record_data with
          created_at := some now, updated_at := some now, id := some t.nextId }
      record_data.excel_blob_url record_data.excel_blob_path rfl
  refine ⟨⟨{ _prepare_record_for_db record_data with
        created_at := some now, updated_at := some now, id := some t.nextId },
      ?_, rfl⟩, fun x => rfl, fun x => rfl, fun x => rfl, ?_, ?_⟩
  · simp only [create_one_pager_record, hext]
  · intro r' hmem
    rw [update_one_pager_record_rows] at hmem
    obtain ⟨r, hrmem, hrf⟩ := List.mem_map.mp hmem
    split at hrf
    · right
      rw [← hrf]
      simp [applyUpdate, sentUpdatePayload]
    · left
      rw [← hrf]
      exact hrmem
  · intro r' hmem
    rw [update_one_pager_record_atomic_rows] at hmem
    obtain ⟨r, hrmem, hrf⟩ := List.mem_map.mp hmem
    split at hrf
    · right
      rw [← hrf]
      simp [applyUpdate, sentUpdatePayload]
    · left
      rw [← hrf]
      exact hrmem

theorem update_res_excel_fields (t : Table) (now : String) (record_id : Int)
    (update_data : UpdateData) :
    ∀ rc, (update_one_pager_record t now none record_id update_data).2 = some rc →
      rc.excel_blob_url = (if pyTruthyStr (update_data.excel_blob_url.getD none)
          || pyTruthyStr (update_data.excel_blob_path.getD none) then
          update_data.excel_blob_url.getD none else none)
      ∧ rc.excel_blob_path = (if pyTruthyStr (update_data.excel_blob_url.getD none)
          || pyTruthyStr (update_data.excel_blob_path.getD none) then
          update_data.excel_blob_path.getD none else none) := by
  simp only [update_one_pager_record]
  cases hfil : List.filter (fun r => r.id == some record_id) t.rows with
  | nil =>
    intro rc h
    simp at h
  | cons row rest =>
    simp only [List.map_cons]
    obtain ⟨rec, hext, hu', hp', -, -, -, -⟩ := _extract_record_from_db_packed
      (applyUpdate
        { update_data with
          excel_blob_url := none
          excel_blob_path := none
          excel_blob_info := some (some (packExcelBlobInfo
            (update_data.excel_blob_url.getD none) (update_data.excel_blob_path.getD none)))
          updated_at := some (some now) } row)
      (update_data.excel_blob_url.getD none) (update_data.excel_blob_path.getD none) rfl
    rw [hext]
    intro rc h
    have hrc : rec = rc := by simpa using h
    rw [← hrc]
    exact ⟨hu', hp'⟩

theorem update_atomic_res_excel_fields (t : Table) (now : String) (record_id : Int)
    (update_data : UpdateData) (expected_status : Option String) :
    ∀ rc, (update_one_pager_record_atomic t now none record_id update_data
        expected_status).2 = some rc →
      rc.excel_blob_url = (if pyTruthyStr (update_data.excel_blob_url.getD none)
          || pyTruthyStr (update_data.excel_blob_path.getD none) then
          update_data.excel_blob_url.getD none else none)
      ∧ rc.excel_blob_path = (if pyTruthyStr (update_data.excel_blob_url.getD none)
          || pyTruthyStr (update_data.excel_blob_path.getD none) then
          update_data.excel_blob_path.getD none else none) := by
  simp only [update_one_pager_record_atomic]
  cases hfil : List.filter (fun r => r.id == some record_id &&
      (match expected_status with
       | some st => r.status == st
       | none => true)) t.rows with
  | nil =>
    intro rc h
    simp at h
  | cons row rest =>
    simp only [List.map_cons]
    obtain ⟨rec, hext, hu', hp', -, -, -, -⟩ := _extract_record_from_db_packed
      (applyUpdate
        { update_data with
          excel_blob_url := none
          excel_blob_path := none
          excel_blob_info := some (some (packExcelBlobInfo
            (update_data.excel_blob_url.getD none) (update_data.excel_blob_path.getD none)))
          updated_at := some (some now) } row)
      (update_data.excel_blob_url.getD none) (update_data.excel_blob_path.getD none) rfl
    rw [hext]
    intro rc h
    have hrc : rec = rc := by simpa using h
    rw [← hrc]
    exact ⟨hu', hp'⟩

/-- C3 amended: on every write, when at least one of the popped excel
values is non-empty, the stored `excel_blob_info` column is the two-key
object holding both supplied values as given (an absent value is stored
as JSON null, but an empty-string value is stored as the empty string,
not as null), and reading the row back yields exactly those stored
values; when both are empty or absent, the column is stored as null and
both fields read back as null. -/
theorem excel_pair_stored_and_read_back (t : Table) (now : String)
    (record_data : OnePagerRecord) (record_id : Int) (update_data : UpdateData)
    (expected_status : Option String) :
    ((pyTruthyStr record_data.excel_blob_url
        || pyTruthyStr record_data.excel_blob_path) = true →
      ∃ row, (create_one_pager_record t now none record_data).1.rows = t.rows ++ [row]
        ∧ row.excel_blob_info = some (JsonVal.jObj
            [("excel_blob_url", jsonOfOptStr record_data.excel_blob_url),
             ("excel_blob_path", jsonOfOptStr record_data.excel_blob_path)]))
    ∧ ((pyTruthyStr record_data.excel_blob_url
        || pyTruthyStr record_data.excel_blob_path) = false →
      ∃ row, (create_one_pager_record t now none record_data).1.rows = t.rows ++ [row]
        ∧ row.excel_blob_info = some JsonVal.jNull)
    ∧ ((pyTruthyStr record_data.excel_blob_url
        || pyTruthyStr record_data.excel_blob_path) = true →
      ∃ rc, (create_one_pager_record t now none record_data).2 = some rc
        ∧ rc.excel_blob_url = record_data.excel_blob_url
        ∧ rc.excel_blob_path = record_data.excel_blob_path)
    ∧ ((pyTruthyStr record_data.excel_blob_url
        || pyTruthyStr record_data.excel_blob_path) = false →
      ∃ rc, (create_one_pager_record t now none record_data).2 = some rc
        ∧ rc.excel_blob_url = none ∧ rc.excel_blob_path = none)
    ∧ (∀ rc, (update_one_pager_record t now none record_id update_data).2 = some rc →
        rc.excel_blob_url = (if pyTruthyStr (update_data.excel_blob_url.getD none)
            || pyTruthyStr (update_data.excel_blob_path.getD none) then
            update_data.excel_blob_url.getD none else none)
        ∧ rc.excel_blob_path = (if pyTruthyStr (update_data.excel_blob_url.getD none)
            || pyTruthyStr (update_data.excel_blob_path.getD none) then
            update_data.excel_blob_path.getD none else none))
    ∧ (∀ rc, (update_one_pager_record_atomic t now none record_id update_data
          expected_status).2 = some rc →
        rc.excel_blob_url = (if pyTruthyStr (update_data.excel_blob_url.getD none)
            || pyTruthyStr (update_data.excel_blob_path.getD none) then
            update_data.excel_blob_url.getD none else none)
        ∧ rc.excel_blob_path = (if pyTruthyStr (update_data.excel_blob_url.getD none)
            || pyTruthyStr (update_data.excel_blob_path.getD none) then
            update_data.excel_blob_path.getD none else none)) := by
  obtain ⟨rec, hext, hu', hp', -, -, -, -⟩ :=
    _extract_record_from_db_packed
      { _prepare_record_for_db record_data with
          created_at := some now, updated_at := some now, id := some t.nextId }
      record_data.excel_blob_url record_data.excel_blob_path rfl
  refine ⟨?_, ?_, ?_, ?_,
    update_res_excel_fields t now record_id update_data,
    update_atomic_res_excel_fields t now record_id update_data expected_status⟩
  · intro htr
    refine ⟨{ _prepare_record_for_db record_data with
        created_at := some now, updated_at := some now, id := some t.nextId },
      by simp only [create_one_pager_record, hext], ?_⟩
    show some (packExcelBlobInfo record_data.excel_blob_url record_data.excel_blob_path)
      = _
    rw [packExcelBlobInfo, if_pos htr]
  · intro hfa
    refine ⟨{ _prepare_record_for_db record_data with
        created_at := some now, updated_at := some now, id := some t.nextId },
      by simp only [create_one_pager_record, hext], ?_⟩
    show some (packExcelBlobInfo record_data.excel_blob_url record_data.excel_blob_path)
      = _
    rw [packExcelBlobInfo, if_neg (by simp [hfa])]
  · intro htr
    refine ⟨rec, by simp only [create_one_pager_record, hext], ?_, ?_⟩
    · rw [hu', if_pos htr]
    · rw [hp', if_pos htr]
  · intro hfa
    refine ⟨rec, by simp only [create_one_pager_record, hext], ?_, ?_⟩
    · rw [hu', if_neg (by simp [hfa])]
    · rw [hp', if_neg (by simp [hfa])]

/-- A concrete record supplying a non-empty `excel_blob_url` together
with an empty-string `excel_blob_path`. -/
def emptyPathRecord : OnePagerRecord :=
  { sampleRecord with
    excel_blob_url := some "https://x/data.xlsx"
    excel_blob_path := some "" }

/-- C3 counterexample: the claim says a missing or empty member of the
excel pair is stored as null; but creating a record whose
`excel_blob_path` is the empty string stores the empty string inside the
`excel_blob_info` object (not null), and reading back yields `some ""`
(not null). -/
theorem excel_empty_string_not_null_counterexample :
    ((create_one_pager_record { rows := [], nextId := 1 } "2024-06-01T00:00:00" none
        emptyPathRecord).1.rows.map (fun r => r.excel_blob_info))
      = [some (JsonVal.jObj [("excel_blob_url", JsonVal.jStr "https://x/data.xlsx"),
          ("excel_blob_path", JsonVal.jStr "")])]
    ∧ ((create_one_pager_record { rows := [], nextId := 1 } "2024-06-01T00:00:00" none
        emptyPathRecord).2.map (fun rc => rc.excel_blob_path)) = some (some "") := by
  constructor <;> rfl

/-- C9 amended: `_extract_record_from_db` sets both excel fields to null
and returns a record when the `excel_blob_info` column is absent, null,
the empty object, or a non-empty object (fields taken from its two keys,
a missing key yielding null); but for a non-null, non-object column value
the record construction fails pydantic validation of the
`excel_blob_info` field and raises instead of returning a record. -/
theorem extract_excel_column_shapes (row : DbRow) :
    (row.excel_blob_info = none →
      _extract_record_from_db row = Except.ok (extractedRecord row none none none))
    ∧ (row.excel_blob_info = some JsonVal.jNull →
      _extract_record_from_db row = Except.ok (extractedRecord row none none none))
    ∧ (row.excel_blob_info = some (JsonVal.jObj []) →
      _extract_record_from_db row = Except.ok (extractedRecord row none none (some [])))
    ∧ (∀ ps uv pv, row.excel_blob_info = some (JsonVal.jObj ps) → ps ≠ [] →
        validateOptionalStr (jLookup ps "excel_blob_url") = Except.ok uv →
        validateOptionalStr (jLookup ps "excel_blob_path") = Except.ok pv →
        _extract_record_from_db row = Except.ok (extractedRecord row uv pv (some ps)))
    ∧ (∀ v, row.excel_blob_info = some v → (∀ ps, v ≠ JsonVal.jObj ps) →
        v ≠ JsonVal.jNull →
        ∃ err, _extract_record_from_db row = Except.error err) := by
  refine ⟨?_, ?_, ?_, ?_, ?_⟩
  · intro h
    simp only [_extract_record_from_db, h, Bind.bind, Except.bind,
      validateOptionalStr, validateOptionalDict]
    rfl
  · intro h
    simp only [_extract_record_from_db, h, Bind.bind, Except.bind,
      validateOptionalStr, validateOptionalDict]
    rfl
  · intro h
    simp only [_extract_record_from_db, h, jsonTruthy, List.isEmpty, Bind.bind,
      Except.bind, validateOptionalStr, validateOptionalDict]
    rfl
  · intro ps uv pv h hne hu hp
    have hps : ps.isEmpty = false := by
      cases ps with
      | nil => exact absurd rfl hne
      | cons q qs => rfl
    simp only [_extract_record_from_db, h, jsonTruthy, hps, Bool.not_false, if_true,
      Bind.bind, Except.bind, hu, hp, validateOptionalDict]
    rfl
  · intro v h hobj hnull
    cases v with
    | jNull => exact absurd rfl hnull
    | jObj ps => exact absurd rfl (hobj ps)
    | jStr s =>
      refine ⟨"ValidationError: dict type expected", ?_⟩
      simp only [_extract_record_from_db, h, Bind.bind, Except.bind,
        validateOptionalStr, validateOptionalDict]
    | jInt n =>
      refine ⟨"ValidationError: dict type expected", ?_⟩
      simp only [_extract_record_from_db, h, Bind.bind, Except.bind,
        validateOptionalStr, validateOptionalDict]
    | jBool b =>
      refine ⟨"ValidationError: dict type expected", ?_⟩
      simp only [_extract_record_from_db, h, Bind.bind, Except.bind,
        validateOptionalStr, validateOptionalDict]
    | jArr vs =>
      refine ⟨"ValidationError: dict type expected", ?_⟩
      simp only [_extract_record_from_db, h, Bind.bind, Except.bind,
        validateOptionalStr, validateOptionalDict]

/-- A concrete row whose `excel_blob_info` column holds a JSON string
rather than an object or null. -/
def badExcelInfoRow : DbRow :=
  { sampleRow with excel_blob_info := some (JsonVal.jStr "oops") }

/-- C9 counterexample: the claim says extraction returns a record without
failing for any non-object `excel_blob_info` value; but on a row whose
column holds a JSON string the record construction raises a validation
error instead. -/
theorem extract_non_object_raises_counterexample :
    _extract_record_from_db badExcelInfoRow
      = Except.error "ValidationError: dict type expected" := by
  rfl

/-- C5: the constructor succeeds exactly when both configuration values
are set (truthy) and the underlying client can be constructed — it raises
a `ValueError` otherwise; and every operation, for every input and every
exception raised by the underlying client, catches the exception and
returns its failure indicator (`none` for single-record operations, `[]`
for list operations, `false` for delete) without re-raising and without
touching the table. -/
theorem database_service_error_contract (supabase_url supabase_key : Option String)
    (clientOk : Bool) (t : Table) (now e : String) (record_data : OnePagerRecord)
    (record_id : Int) (update_data : UpdateData) (expected_status : Option String)
    (company_name request_id : String) (limit : Nat) :
    ((DatabaseService_init supabase_url supabase_key clientOk = Except.ok ())
        ↔ (pyTruthyStr supabase_url = true ∧ pyTruthyStr supabase_key = true
            ∧ clientOk = true))
    ∧ create_one_pager_record t now (some e) record_data = (t, none)
    ∧ update_one_pager_record t now (some e) record_id update_data = (t, none)
    ∧ update_one_pager_record_atomic t now (some e) record_id update_data expected_status
        = (t, none)
    ∧ get_one_pager_record t (some e) record_id = none
    ∧ get_one_pager_records_by_company t (some e) company_name = []
    ∧ get_recent_one_pager_records t (some e) limit = []
    ∧ get_one_pager_record_by_request_id t (some e) request_id = none
    ∧ get_in_progress_records_by_company t (some e) company_name = []
    ∧ get_recent_request_by_company t (some e) company_name = none
    ∧ delete_one_pager_record t (some e) record_id = (t, false) := by
  refine ⟨?_, rfl, rfl, rfl, rfl, rfl, rfl, rfl, rfl, rfl, rfl⟩
  rw [DatabaseService_init]
  by_cases h1 : pyTruthyStr supabase_url = true
  · by_cases h2 : pyTruthyStr supabase_key = true
    · by_cases h3 : clientOk = true
      · simp [h1, h2, h3]
      · simp [h1, h2, h3]
    · simp [h1, h2]
  · simp [h1]

/-- A concrete record supplying both excel fields as non-empty strings. -/
def excelRecord : OnePagerRecord :=
  { sampleRecord with
    excel_blob_url := some "https://x/a.xlsx"
    excel_blob_path := some "one-pagers/acme/excel/a.xlsx" }

/-- A concrete payload touching only the `status` field. -/
def statusSuccessPayload : UpdateData := { status := some "success" }

theorem create_then_get_round_trip_witness :
    ∃ rec, (create_one_pager_record sampleTable "2024-06-02T00:00:00" none
        excelRecord).2 = some rec ∧
      rec.id = some sampleTable.nextId ∧
      ∃ rec2, get_one_pager_record
          (create_one_pager_record sampleTable "2024-06-02T00:00:00" none excelRecord).1
          none sampleTable.nextId = some rec2 ∧
        rec2.excel_blob_url = some "https://x/a.xlsx" ∧
        rec2.excel_blob_path = some "one-pagers/acme/excel/a.xlsx" :=
  create_then_get_round_trips_excel_pair sampleTable "2024-06-02T00:00:00" excelRecord
    "https://x/a.xlsx" "one-pagers/acme/excel/a.xlsx" rfl rfl (by decide) (by decide)
    (by decide)

theorem update_atomic_guard_witness :
    ((update_one_pager_record_atomic sampleTable "2024-06-02T00:00:00" none 1
        statusSuccessPayload (some "in-progress")).2).isSome = true
    ∧ (update_one_pager_record_atomic
        (update_one_pager_record_atomic sampleTable "2024-06-02T00:00:00" none 1
          statusSuccessPayload (some "in-progress")).1
        "2024-06-02T00:01:00" none 1 statusSuccessPayload (some "in-progress")).2 = none :=
  (update_atomic_guard_and_single_winner sampleTable "2024-06-02T00:00:00"
      "2024-06-02T00:01:00" 1 statusSuccessPayload statusSuccessPayload "in-progress"
      "success" rfl (by decide)).2.2
    ⟨sampleRow, List.Mem.head _, rfl, rfl⟩

theorem excel_pair_stored_witness :
    ∃ rc, (create_one_pager_record { rows := [], nextId := 5 } "2024-06-03T00:00:00" none
        excelRecord).2 = some rc
      ∧ rc.excel_blob_url = excelRecord.excel_blob_url
      ∧ rc.excel_blob_path = excelRecord.excel_blob_path :=
  (excel_pair_stored_and_read_back { rows := [], nextId := 5 } "2024-06-03T00:00:00"
    excelRecord 1 statusSuccessPayload none).2.2.1 (by decide)

theorem partial_update_nulls_witness :
    (∀ r' ∈ (update_one_pager_record sampleTable "2024-06-04T00:00:00" none 1
        statusSuccessPayload).1.rows,
      r'.id = some 1 → r'.excel_blob_info = some JsonVal.jNull)
    ∧ (∀ r' ∈ (update_one_pager_record_atomic sampleTable "2024-06-04T00:00:00" none 1
          statusSuccessPayload none).1.rows,
        r'.id = some 1 →
          r'.excel_blob_info = some JsonVal.jNull ∨ r' ∈ sampleTable.rows) :=
  partial_update_without_excel_nulls_info sampleTable "2024-06-04T00:00:00" 1
    statusSuccessPayload none (by decide) (by decide)

theorem error_contract_witness :
    (DatabaseService_init (some "https://db.example") (some "anon-key") true
        = Except.ok ())
      ↔ (pyTruthyStr (some "https://db.example") = true
          ∧ pyTruthyStr (some "anon-key") = true ∧ true = true) :=
  (database_service_error_contract (some "https://db.example") (some "anon-key") true
    sampleTable "2024-06-05T00:00:00" "boom" sampleRecord 1 statusSuccessPayload none
    "Acme" "r1" 100).1

theorem update_atomic_no_guard_witness :
    update_one_pager_record_atomic sampleTable "2024-06-05T00:00:00" none 1
        statusSuccessPayload none
      = update_one_pager_record sampleTable "2024-06-05T00:00:00" none 1
        statusSuccessPayload :=
  update_atomic_without_guard_equals_update sampleTable "2024-06-05T00:00:00" none 1
    statusSuccessPayload

theorem update_preserves_store_fields_witness :
    ((update_one_pager_record sampleTable "2024-06-06T00:00:00" none 1
        statusSuccessPayload).1.rows.map (fun r => (r.id, r.created_at))
      = sampleTable.rows.map (fun r => (r.id, r.created_at)))
    ∧ ((update_one_pager_record_atomic sampleTable "2024-06-06T00:00:00" none 1
          statusSuccessPayload (some "in-progress")).1.rows.map
        (fun r => (r.id, r.created_at))
      = sampleTable.rows.map (fun r => (r.id, r.created_at)))
    ∧ (∀ r' ∈ (update_one_pager_record sampleTable "2024-06-06T00:00:00" none 1
        statusSuccessPayload).1.rows,
        r' ∈ sampleTable.rows ∨ r'.updated_at = some "2024-06-06T00:00:00")
    ∧ (∀ r' ∈ (update_one_pager_record_atomic sampleTable "2024-06-06T00:00:00" none 1
          statusSuccessPayload (some "in-progress")).1.rows,
        r' ∈ sampleTable.rows ∨ r'.updated_at = some "2024-06-06T00:00:00") :=
  update_preserves_id_and_created_at sampleTable "2024-06-06T00:00:00" 1
    statusSuccessPayload (some "in-progress") rfl rfl

theorem create_stamps_witness :
    (∃ row, (create_one_pager_record sampleTable "2024-06-07T00:00:00" none
        sampleRecord).1.rows = sampleTable.rows ++ [row]
      ∧ row.created_at = some "2024-06-07T00:00:00"
      ∧ row.updated_at = some "2024-06-07T00:00:00"
      ∧ row.id = some sampleTable.nextId)
    ∧ (∃ rec, (create_one_pager_record sampleTable "2024-06-07T00:00:00" none
        sampleRecord).2 = some rec
      ∧ rec.id = some sampleTable.nextId
      ∧ rec.created_at = some "2024-06-07T00:00:00"
      ∧ rec.updated_at = some "2024-06-07T00:00:00")
    ∧ (∀ i ca ua, create_one_pager_record sampleTable "2024-06-07T00:00:00" none
          { sampleRecord with id := i, created_at := ca, updated_at := ua }
        = create_one_pager_record sampleTable "2024-06-07T00:00:00" none sampleRecord) :=
  create_record_stamps_and_owns_store_fields sampleTable "2024-06-07T00:00:00" sampleRecord

/-- A concrete row whose `excel_blob_info` column holds JSON null. -/
def nullExcelInfoRow : DbRow :=
  { sampleRow with excel_blob_info := some JsonVal.jNull }

theorem extract_null_info_witness :
    _extract_record_from_db nullExcelInfoRow
      = Except.ok (extractedRecord nullExcelInfoRow none none none) :=
  (extract_excel_column_shapes nullExcelInfoRow).2.1 rfl

theorem excel_info_recomputed_witness :
    ∀ r' ∈ (update_one_pager_record sampleTable "2024-06-08T00:00:00" none 1
        statusSuccessPayload).1.rows,
      r' ∈ sampleTable.rows ∨ r'.excel_blob_info = some (packExcelBlobInfo
        (statusSuccessPayload.excel_blob_url.getD none)
        (statusSuccessPayload.excel_blob_path.getD none)) :=
  (excel_blob_info_always_recomputed sampleTable "2024-06-08T00:00:00" sampleRecord 1
    statusSuccessPayload none).2.2.2.2.1
